import Mathlib

/-! Verification of the fetch-and-classify pipeline of
`http-response-collector` (src/main.go).

The Go program is shallowly embedded: the pure helpers (`isValidURL`,
`decodeBase64`, JSON validity and the inner-payload unmarshal, header
joining and encoding, the `omitempty` serialization shape of
`OutputPayload`) are translated as executable Lean functions, and the
effectful boundaries (the HTTP transport, the request-body reader, the
envelope unmarshal of the standard library, the outbound publish) are
oracle inputs threaded through explicit environment records. Bytes are
modelled as characters; every concrete input exercised below is ASCII,
where the two coincide. -/

namespace HttpResponseCollector

/-- Decidable equality for `Except`, so that concrete pipeline outcomes
can be checked by `decide`. -/
instance {ε α : Type} [DecidableEq ε] [DecidableEq α] : DecidableEq (Except ε α) := fun x y =>
  match x, y with
  | Except.ok a, Except.ok b =>
    match decEq a b with
    | isTrue h => isTrue (by rw [h])
    | isFalse h => isFalse (fun hh => h (Except.ok.inj hh))
  | Except.error a, Except.error b =>
    match decEq a b with
    | isTrue h => isTrue (by rw [h])
    | isFalse h => isFalse (fun hh => h (Except.error.inj hh))
  | Except.ok _, Except.error _ => isFalse (fun hh => Except.noConfusion hh)
  | Except.error _, Except.ok _ => isFalse (fun hh => Except.noConfusion hh)

/-- A parsed JSON value; numbers keep their source lexeme, since the
pipeline never uses numeric magnitudes. -/
inductive JsonValue where
  | null
  | bool (b : Bool)
  | num (lexeme : String)
  | str (s : String)
  | arr (elems : List JsonValue)
  | obj (members : List (String × JsonValue))

/-- JSON insignificant whitespace, as accepted by the Go scanner. -/
def isJsonWS (c : Char) : Bool :=
  c = ' ' || c = '\t' || c = '\n' || c = '\r'

/-- Drop leading JSON whitespace. -/
def skipWS : List Char → List Char
  | [] => []
  | c :: cs => if isJsonWS c then skipWS cs else c :: cs

/-- ASCII decimal digit test. -/
def isDigitChar (c : Char) : Bool := '0' ≤ c && c ≤ '9'

/-- Split a longest digit run off the front of the input. -/
def takeDigits : List Char → List Char × List Char
  | [] => ([], [])
  | c :: cs =>
    if isDigitChar c then
      let (ds, r) := takeDigits cs
      (c :: ds, r)
    else ([], c :: cs)

/-- ASCII hexadecimal digit test. -/
def isHexChar (c : Char) : Bool :=
  ('0' ≤ c && c ≤ '9') || ('a' ≤ c && c ≤ 'f') || ('A' ≤ c && c ≤ 'F')

/-- Value of a hexadecimal digit. -/
def hexCharVal (c : Char) : Nat :=
  if '0' ≤ c && c ≤ '9' then c.toNat - 48
  else if 'a' ≤ c && c ≤ 'f' then c.toNat - 87
  else c.toNat - 55

/-- The eight single-character JSON string escapes of the Go scanner. -/
def unescapeChar (c : Char) : Option Char :=
  if c = '"' then some '"'
  else if c = '\\' then some '\\'
  else if c = '/' then some '/'
  else if c = 'b' then some (Char.ofNat 8)
  else if c = 'f' then some (Char.ofNat 12)
  else if c = 'n' then some '\n'
  else if c = 'r' then some '\r'
  else if c = 't' then some '\t'
  else none

/-- Parse the remainder of a JSON string after the opening quote, per the
Go scanner: raw characters below 0x20 are rejected; the escapes are the
eight single-character ones plus a backslash-u with four hex digits. -/
def parseStrAux : List Char → List Char → Option (String × List Char)
  | acc, '"' :: rest => some (String.mk acc.reverse, rest)
  | acc, '\\' :: 'u' :: a :: b :: c :: d :: rest =>
    if isHexChar a && isHexChar b && isHexChar c && isHexChar d then
      parseStrAux
        (Char.ofNat (((hexCharVal a * 16 + hexCharVal b) * 16 + hexCharVal c) * 16
          + hexCharVal d) :: acc) rest
    else none
  | acc, '\\' :: e :: rest =>
    match unescapeChar e with
    | some ch => parseStrAux (ch :: acc) rest
    | none => none
  | acc, c :: rest =>
    if 32 ≤ c.toNat then parseStrAux (c :: acc) rest else none
  | _, [] => none

/-- Optional fraction part of a JSON number. -/
def parseFracPart : List Char → Option (List Char × List Char)
  | '.' :: r =>
    match takeDigits r with
    | ([], _) => none
    | (ds, r2) => some ('.' :: ds, r2)
  | cs => some ([], cs)

/-- Optional exponent part of a JSON number. -/
def parseExpPart : List Char → Option (List Char × List Char)
  | c :: r =>
    if c = 'e' || c = 'E' then
      let (sgn, r1) : List Char × List Char :=
        match r with
        | s :: r2 => if s = '+' || s = '-' then ([s], r2) else ([], s :: r2)
        | [] => ([], [])
      match takeDigits r1 with
      | ([], _) => none
      | (ds, r2) => some (c :: (sgn ++ ds), r2)
    else some ([], c :: r)
  | [] => some ([], [])

/-- Parse a JSON number lexeme: optional minus, an integer part with no
leading zero, optional fraction and exponent. -/
def parseNumber (cs : List Char) : Option (String × List Char) :=
  let (sgn, cs1) : List Char × List Char :=
    match cs with
    | '-' :: r => (['-'], r)
    | _ => ([], cs)
  match takeDigits cs1 with
  | ([], _) => none
  | (intDs, cs2) =>
    if intDs.length > 1 && intDs.head? = some '0' then none
    else
      match parseFracPart cs2 with
      | none => none
      | some (fracDs, cs3) =>
        match parseExpPart cs3 with
        | none => none
        | some (expDs, cs4) => some (String.mk (sgn ++ intDs ++ fracDs ++ expDs), cs4)

/-- Expect the given literal characters at the front of the input. -/
def expectChars : List Char → List Char → Option (List Char)
  | [], cs => some cs
  | e :: es, c :: cs => if c = e then expectChars es cs else none
  | _ :: _, [] => none

mutual

/-- Parse one JSON value, mirroring the Go scanner grammar; the fuel
bounds the nesting recursion (string and number lexing are structural). -/
def parseValue : Nat → List Char → Option (JsonValue × List Char)
  | 0, _ => none
  | _ + 1, [] => none
  | fuel + 1, c :: rest =>
    if c = 'n' then
      match expectChars ['u', 'l', 'l'] rest with
      | some r => some (JsonValue.null, r)
      | none => none
    else if c = 't' then
      match expectChars ['r', 'u', 'e'] rest with
      | some r => some (JsonValue.bool true, r)
      | none => none
    else if c = 'f' then
      match expectChars ['a', 'l', 's', 'e'] rest with
      | some r => some (JsonValue.bool false, r)
      | none => none
    else if c = '"' then
      match parseStrAux [] rest with
      | some (s, r) => some (JsonValue.str s, r)
      | none => none
    else if c.toNat = 91 then
      match skipWS rest with
      | c2 :: r2 =>
        if c2.toNat = 93 then some (JsonValue.arr [], r2)
        else parseElems fuel [] (c2 :: r2)
      | [] => none
    else if c.toNat = 123 then
      match skipWS rest with
      | c2 :: r2 =>
        if c2.toNat = 125 then some (JsonValue.obj [], r2)
        else parseMembers fuel [] (c2 :: r2)
      | [] => none
    else if c = '-' || isDigitChar c then
      match parseNumber (c :: rest) with
      | some (lex, r) => some (JsonValue.num lex, r)
      | none => none
    else none

/-- Parse the comma-separated elements of a non-empty JSON array body. -/
def parseElems : Nat → List JsonValue → List Char → Option (JsonValue × List Char)
  | 0, _, _ => none
  | fuel + 1, acc, cs =>
    match parseValue fuel cs with
    | none => none
    | some (v, r) =>
      match skipWS r with
      | c :: r2 =>
        if c = ',' then parseElems fuel (v :: acc) (skipWS r2)
        else if c.toNat = 93 then some (JsonValue.arr (v :: acc).reverse, r2)
        else none
      | [] => none

/-- Parse the comma-separated members of a non-empty JSON object body. -/
def parseMembers : Nat → List (String × JsonValue) → List Char →
    Option (JsonValue × List Char)
  | 0, _, _ => none
  | fuel + 1, acc, cs =>
    match cs with
    | c :: rest =>
      if c = '"' then
        match parseStrAux [] rest with
        | some (k, r) =>
          match skipWS r with
          | c2 :: r2 =>
            if c2 = ':' then
              match parseValue fuel (skipWS r2) with
              | some (v, r3) =>
                match skipWS r3 with
                | c3 :: r4 =>
                  if c3 = ',' then parseMembers fuel ((k, v) :: acc) (skipWS r4)
                  else if c3.toNat = 125 then
                    some (JsonValue.obj ((k, v) :: acc).reverse, r4)
                  else none
                | [] => none
              | none => none
            else none
          | [] => none
        | none => none
      else none
    | [] => none

end

/-- Parse a whole JSON document: one value with optional surrounding
whitespace and nothing else. -/
def jsonParse (s : String) : Option JsonValue :=
  match parseValue (2 * s.toList.length + 8) (skipWS s.toList) with
  | some (v, rest) => if skipWS rest = [] then some v else none
  | none => none

/-- Model of Go `json.Valid`: the bytes form exactly one JSON value with
optional surrounding whitespace. -/
def jsonValid (s : String) : Bool := (jsonParse s).isSome

/-- InputPayload of src/main.go: the decoded application request. -/
structure InputPayload where
  url : String
deriving Repr, DecidableEq

/-- ASCII lowercasing of a key, char by char (the fragment of Go's
case-insensitive field matching the ASCII inputs below exercise). -/
def foldKey (k : String) : String := String.mk (k.toList.map Char.toLower)

/-- Fold over the members of the decoded top-level object the way Go
`json.Unmarshal` fills the `URL` field: keys are matched
case-insensitively, a later duplicate overwrites, a JSON string sets the
field, JSON null leaves it, and any other value type is an unmarshal
error. -/
def extractUrl : List (String × JsonValue) → String → Option String
  | [], acc => some acc
  | (k, v) :: rest, acc =>
    if foldKey k = "url" then
      match v with
      | JsonValue.str s => extractUrl rest s
      | JsonValue.null => extractUrl rest acc
      | _ => none
    else extractUrl rest acc

/-- Model of `json.Unmarshal([]byte(data), &input)` for the one-field
struct `InputPayload`: the data must be valid JSON whose top-level value
is an object (filling `url` from its members) or null (leaving the zero
value); any other top-level value is a type error. -/
def parseInputPayload (s : String) : Except String InputPayload :=
  match jsonParse s with
  | none => Except.error "invalid JSON"
  | some JsonValue.null => Except.ok { url := "" }
  | some (JsonValue.obj kvs) =>
    match extractUrl kvs "" with
    | some u => Except.ok { url := u }
    | none => Except.error "cannot unmarshal value into url field"
  | some _ => Except.error "cannot unmarshal value into InputPayload"

/-- Position of a character in the standard base64 alphabet. -/
def base64Index (c : Char) : Option Nat :=
  if 'A' ≤ c && c ≤ 'Z' then some (c.toNat - 65)
  else if 'a' ≤ c && c ≤ 'z' then some (c.toNat - 97 + 26)
  else if '0' ≤ c && c ≤ '9' then some (c.toNat - 48 + 52)
  else if c = '+' then some 62
  else if c = '/' then some 63
  else none

/-- Decode base64 four characters at a time, per Go
`base64.StdEncoding`: the final quantum may end in one or two padding
characters, padding anywhere else is corrupt input, and so is any
character outside the alphabet. -/
def decodeBase64Groups : List Char → Except String (List Nat)
  | [] => Except.ok []
  | c1 :: c2 :: c3 :: c4 :: rest =>
    match base64Index c1, base64Index c2 with
    | some i1, some i2 =>
      if c3 = '=' then
        if c4 = '=' then
          if rest = [] then Except.ok [i1 * 4 + i2 / 16]
          else Except.error "illegal base64 data"
        else Except.error "illegal base64 data"
      else
        match base64Index c3 with
        | some i3 =>
          if c4 = '=' then
            if rest = [] then
              Except.ok [i1 * 4 + i2 / 16, (i2 % 16) * 16 + i3 / 4]
            else Except.error "illegal base64 data"
          else
            match base64Index c4 with
            | some i4 =>
              match decodeBase64Groups rest with
              | Except.ok bs =>
                Except.ok ([i1 * 4 + i2 / 16, (i2 % 16) * 16 + i3 / 4,
                  (i3 % 4) * 64 + i4] ++ bs)
              | Except.error e => Except.error e
            | none => Except.error "illegal base64 data"
        | none => Except.error "illegal base64 data"
    | _, _ => Except.error "illegal base64 data"
  | _ => Except.error "illegal base64 data"

/-- decodeBase64 of src/main.go: Go `base64.StdEncoding.DecodeString`
(which skips carriage returns and newlines) followed by the byte-to-string
conversion. -/
def decodeBase64 (encoded : String) : Except String String :=
  let cs := encoded.toList.filter (fun c => !(c = '\r' || c = '\n'))
  match decodeBase64Groups cs with
  | Except.ok bs => Except.ok (String.mk (bs.map Char.ofNat))
  | Except.error e => Except.error e

/-- Lowercase hexadecimal digit, as emitted by the Go JSON encoder. -/
def hexDigitChar (n : Nat) : Char :=
  if n < 10 then Char.ofNat (48 + n) else Char.ofNat (87 + n)

/-- Escape one character the way Go `json.Marshal` escapes string
contents (including the HTML-safe escapes for angle brackets and
ampersand and the U+2028/U+2029 escapes). -/
def escapeJsonChar (c : Char) : String :=
  if c = '"' then "\\\""
  else if c = '\\' then "\\\\"
  else if c = '\n' then "\\n"
  else if c = '\r' then "\\r"
  else if c = '\t' then "\\t"
  else if c.toNat < 32 then
    String.mk ['\\', 'u', '0', '0', hexDigitChar (c.toNat / 16), hexDigitChar (c.toNat % 16)]
  else if c = '<' then "\\u003c"
  else if c = '>' then "\\u003e"
  else if c = '&' then "\\u0026"
  else if c.toNat = 8232 then "\\u2028"
  else if c.toNat = 8233 then "\\u2029"
  else String.mk [c]

/-- Render a string as a quoted JSON string literal, Go-style. -/
def encodeJsonString (s : String) : String :=
  "\"" ++ String.join (s.toList.map escapeJsonChar) ++ "\""

/-- Insert one binding into a key-sorted association list. -/
def insertSorted (kv : String × String) : List (String × String) → List (String × String)
  | [] => [kv]
  | kv2 :: rest => if kv.1 < kv2.1 then kv :: kv2 :: rest else kv2 :: insertSorted kv rest

/-- Sort an association list by key, as Go `json.Marshal` sorts map keys. -/
def sortByKey : List (String × String) → List (String × String)
  | [] => []
  | kv :: rest => insertSorted kv (sortByKey rest)

/-- Model of `json.Marshal` applied to a `map[string]string`: members in
key-sorted order, each rendered as a quoted string pair. -/
def encodeStringMap (m : List (String × String)) : String :=
  "\x7b" ++
    String.intercalate ","
      ((sortByKey m).map (fun kv => encodeJsonString kv.1 ++ ":" ++ encodeJsonString kv.2)) ++
    "\x7d"

/-- OutputPayload of src/main.go. Go zero values stand for unset fields:
an empty string for the `omitempty` string fields, zero for the
integers. -/
structure OutputPayload where
  url : String
  error : String
  headers : String
  responseBody : String
  responseJson : String
  responseTime : Int
  requestTime : String
  statusCode : Int
deriving Repr, DecidableEq

/-- The serialization shape of `json.Marshal` on an OutputPayload: the
emitted members in struct-tag order. `url`, `responseTime`,
`requestTime` and `statusCode` are always emitted; `error`, `headers`,
`responseBody` and `responseJson` carry `omitempty` and are emitted only
when non-zero. -/
def marshalOutputPayload (p : OutputPayload) : List (String × JsonValue) :=
  [("url", JsonValue.str p.url)]
  ++ (if p.error = "" then [] else [("error", JsonValue.str p.error)])
  ++ (if p.headers = "" then [] else [("headers", JsonValue.str p.headers)])
  ++ (if p.responseBody = "" then [] else [("responseBody", JsonValue.str p.responseBody)])
  ++ (if p.responseJson = "" then [] else [("responseJson", JsonValue.str p.responseJson)])
  ++ [("responseTime", JsonValue.num (toString p.responseTime)),
      ("requestTime", JsonValue.str p.requestTime),
      ("statusCode", JsonValue.num (toString p.statusCode))]

/-- publishErrorMessage of src/main.go: the failure-shaped OutputPayload
it hands to publishMessage, with the wall-clock timestamp string as an
argument (in Go, `time.Now().UTC().Format(time.RFC3339Nano)`). -/
def publishErrorMessage (errorMsg : String) (url : String) (now : String) : OutputPayload :=
  { url := url, error := errorMsg, headers := "", responseBody := "",
    responseJson := "", responseTime := 0, requestTime := now, statusCode := 0 }

/-- Character-list prefix test, the semantics of Go `strings.HasPrefix`
on the ASCII scheme literals. -/
def hasPrefixCL : List Char → List Char → Bool
  | _, [] => true
  | [], _ :: _ => false
  | c :: cs, p :: ps => c = p && hasPrefixCL cs ps

/-- isValidURL of src/main.go: the URL starts with the literal scheme
text http colon-slash-slash or https colon-slash-slash. -/
def isValidURL (url : String) : Bool :=
  hasPrefixCL url.toList "http://".toList || hasPrefixCL url.toList "https://".toList

/-- The inner `message` object of the Pub/Sub push envelope. -/
structure PubSubMessageBody where
  data : String
  attributes : List (String × String)
  messageId : String
  publishTime : String

/-- PubSubMessage of src/main.go. -/
structure PubSubMessage where
  message : PubSubMessageBody
  subscription : String

/-- A completed HTTP exchange as delivered by the Go transport: status
code, the response header multimap in delivery order (names unique, as
in `http.Header`), and the full body stream offered to the reader. -/
structure HttpResponse where
  statusCode : Int
  header : List (String × List String)
  body : String

/-- Oracle inputs for one call to fetchURL: whether `http.NewRequest`
fails, the result of `client.Do` (a transport error — connection refused,
timeout including the 10-second client limit, DNS or TLS failure — or a
response), whether reading the capped body stream fails, and the two
clock readings the code takes (`time.Since(startTime).Milliseconds()`
and the formatted start timestamp). -/
structure FetchEnv where
  newRequestError : Option String
  doResult : Except String HttpResponse
  bodyReadError : Option String
  responseTimeMs : Int
  requestTime : String

/-- The `for key, values := range resp.Header` loop of fetchURL: each
header's values joined into one string with a comma-space separator. -/
def joinHeaders (h : List (String × List String)) : List (String × String) :=
  h.map (fun kv => (kv.1, String.intercalate ", " kv.2))

/-- `io.ReadAll(io.LimitReader(resp.Body, 10*1024*1024))`: the body
stream truncated at the byte cap. -/
def limitBody (cap : Nat) (body : String) : String :=
  String.mk (body.toList.take cap)

/-- fetchURL of src/main.go: request construction, dispatch, header
joining and JSON-encoding, capped body read, and classification of the
captured body by JSON validity. Every failure returns an error and no
payload. -/
def fetchURL (env : FetchEnv) (url : String) : Except String OutputPayload :=
  match env.newRequestError with
  | some e => Except.error e
  | none =>
    match env.doResult with
    | Except.error e => Except.error e
    | Except.ok resp =>
      let headers := joinHeaders resp.header
      let encodedHeaders := encodeStringMap headers
      match env.bodyReadError with
      | some e => Except.error e
      | none =>
        let bodyBytes := limitBody (10 * 1024 * 1024) resp.body
        Except.ok
          { url := url
            error := ""
            headers := encodedHeaders
            responseBody := if jsonValid bodyBytes then "" else bodyBytes
            responseJson := if jsonValid bodyBytes then bodyBytes else ""
            responseTime := env.responseTimeMs
            requestTime := env.requestTime
            statusCode := resp.statusCode }

/-- Oracle inputs for one inbound call to pubSubHandler: the request
method, the outcome of reading the request body, the outcome of the
standard library's envelope unmarshal as a function of the body read,
the fetch oracle, whether `json.Marshal(output)` fails, and the
wall-clock string used by publishErrorMessage. -/
structure HandlerEnv where
  method : String
  bodyRead : Except String String
  envelopeUnmarshal : String → Except String PubSubMessage
  fetchEnv : FetchEnv
  marshalOutputError : Option String
  now : String

/-- What one call to pubSubHandler does: the inbound HTTP status it
writes, the single payload it hands to publishMessage, and whether the
fetch stage was reached. -/
structure HandlerResult where
  status : Nat
  published : OutputPayload
  fetchAttempted : Bool
deriving Repr

/-- pubSubHandler of src/main.go: the stage-by-stage orchestration.
Every branch writes `http.StatusOK` and publishes exactly one payload
(an error shape from publishErrorMessage, or the fetch output). -/
def pubSubHandler (env : HandlerEnv) : HandlerResult :=
  if env.method ≠ "POST" then
    { status := 200, published := publishErrorMessage "Invalid request method" "" env.now,
      fetchAttempted := false }
  else
    match env.bodyRead with
    | Except.error _ =>
      { status := 200, published := publishErrorMessage "Cannot read body" "" env.now,
        fetchAttempted := false }
    | Except.ok body =>
      match env.envelopeUnmarshal body with
      | Except.error _ =>
        { status := 200, published := publishErrorMessage "Error unmarshalling JSON" body env.now,
          fetchAttempted := false }
      | Except.ok msg =>
        match decodeBase64 msg.message.data with
        | Except.error _ =>
          { status := 200,
            published := publishErrorMessage "Error decoding data" msg.message.data env.now,
            fetchAttempted := false }
        | Except.ok data =>
          match parseInputPayload data with
          | Except.error _ =>
            { status := 200,
              published := publishErrorMessage "Error unmarshalling input JSON" data env.now,
              fetchAttempted := false }
          | Except.ok input =>
            if !isValidURL input.url then
              { status := 200,
                published := publishErrorMessage "Invalid URL" input.url env.now,
                fetchAttempted := false }
            else
              match fetchURL env.fetchEnv input.url with
              | Except.error _ =>
                { status := 200,
                  published := publishErrorMessage "Error fetching URL" input.url env.now,
                  fetchAttempted := true }
              | Except.ok output =>
                match env.marshalOutputError with
                | some _ =>
                  { status := 200,
                    published := publishErrorMessage "Error marshalling output JSON" input.url env.now,
                    fetchAttempted := true }
                | none =>
                  { status := 200, published := output, fetchAttempted := true }

/-! Concrete fixtures used to instantiate the theorems below on closed
inputs. -/

/-- A fetch oracle whose transport succeeds with the given response. -/
def okFetchEnv (resp : HttpResponse) : FetchEnv :=
  { newRequestError := none, doResult := Except.ok resp, bodyReadError := none,
    responseTimeMs := 366, requestTime := "2025-02-04T23:37:31.64365949Z" }

/-- A fetch oracle whose dispatch fails at the transport level. -/
def refusedFetchEnv : FetchEnv :=
  { newRequestError := none, doResult := Except.error "connection refused",
    bodyReadError := none, responseTimeMs := 0, requestTime := "t0" }

/-- A fetch oracle whose request construction fails. -/
def badRequestFetchEnv : FetchEnv :=
  { newRequestError := some "invalid URL", doResult := Except.error "unreached",
    bodyReadError := none, responseTimeMs := 0, requestTime := "t0" }

/-- An inbound envelope carrying the given base64 blob. -/
def envelopeOf (blob : String) : PubSubMessage :=
  { message := { data := blob, attributes := [], messageId := "m1", publishTime := "p1" },
    subscription := "s1" }

/-- A handler oracle: POST method, readable body, an envelope with the
given blob, and the given fetch oracle. -/
def handlerEnvOf (blob : String) (fenv : FetchEnv) : HandlerEnv :=
  { method := "POST", bodyRead := Except.ok "rawbody",
    envelopeUnmarshal := fun _ => Except.ok (envelopeOf blob),
    fetchEnv := fenv, marshalOutputError := none, now := "now0" }

/-- A successful exchange whose body is empty. -/
def emptyBodyResponse : HttpResponse :=
  { statusCode := 204, header := [], body := "" }

/-- A successful exchange whose body is a JSON object. -/
def jsonBodyResponse : HttpResponse :=
  { statusCode := 200, header := [("Content-Type", ["application/json"])],
    body := "\x7b\"message\":\"Hello\"\x7d" }

/-- A successful exchange whose body is plain text, with a multi-valued
header. -/
def textBodyResponse : HttpResponse :=
  { statusCode := 200, header := [("Set-Cookie", ["a=1", "b=2"])],
    body := "Body Content Goes Here" }

/-- The success payload a fetch of an empty-bodied response produces. -/
def emptyBodyPayload : OutputPayload :=
  { url := "http://empty.example", error := "", headers := "\x7b\x7d",
    responseBody := "", responseJson := "", responseTime := 366,
    requestTime := "2025-02-04T23:37:31.64365949Z", statusCode := 204 }

/-- The success payload a fetch of the JSON-bodied response produces. -/
def jsonBodyPayload : OutputPayload :=
  { url := "http://x", error := "",
    headers := "\x7b\"Content-Type\":\"application/json\"\x7d",
    responseBody := "", responseJson := "\x7b\"message\":\"Hello\"\x7d",
    responseTime := 366, requestTime := "2025-02-04T23:37:31.64365949Z",
    statusCode := 200 }

/-! Helper lemmas shared by the claim theorems. -/

/-- The empty byte string is not valid JSON. -/
theorem jsonValid_empty : jsonValid "" = false := rfl

/-- The body cap: a limited read never exceeds the cap. -/
theorem limitBody_length (cap : Nat) (b : String) :
    (limitBody cap b).length = min cap b.length := by
  show (b.toList.take cap).length = min cap b.length
  rw [List.length_take]
  rfl

/-- A body within the cap is read whole. -/
theorem limitBody_of_le (cap : Nat) (b : String) (h : b.length ≤ cap) :
    limitBody cap b = b := by
  have h2 : List.take cap b.data = b.data := List.take_of_length_le h
  show String.mk (List.take cap b.data) = b
  rw [h2]

/-- The serialized payload carries a responseBody member exactly when the
struct field is a non-empty string. -/
theorem responseBody_key_mem (p : OutputPayload) :
    ("responseBody" ∈ (marshalOutputPayload p).map Prod.fst) ↔ p.responseBody ≠ "" := by
  by_cases h1 : p.error = "" <;> by_cases h2 : p.headers = "" <;>
    by_cases h3 : p.responseBody = "" <;> by_cases h4 : p.responseJson = "" <;>
    simp [marshalOutputPayload, h1, h2, h3, h4]

/-- The serialized payload carries a responseJson member exactly when the
struct field is a non-empty string. -/
theorem responseJson_key_mem (p : OutputPayload) :
    ("responseJson" ∈ (marshalOutputPayload p).map Prod.fst) ↔ p.responseJson ≠ "" := by
  by_cases h1 : p.error = "" <;> by_cases h2 : p.headers = "" <;>
    by_cases h3 : p.responseBody = "" <;> by_cases h4 : p.responseJson = "" <;>
    simp [marshalOutputPayload, h1, h2, h3, h4]

/-- Looking up a header name in the joined map yields its values joined
with comma-space, provided header names are unique (as they are in a Go
`http.Header`). -/
theorem lookup_joinHeaders (l : List (String × List String)) (k : String) (vs : List String)
    (hmem : (k, vs) ∈ l) (hnodup : (l.map Prod.fst).Nodup) :
    (joinHeaders l).lookup k = some (String.intercalate ", " vs) := by
  induction l with
  | nil => cases hmem
  | cons hd tl ih =>
    obtain ⟨k0, vs0⟩ := hd
    rw [List.map_cons, List.nodup_cons] at hnodup
    rcases List.mem_cons.mp hmem with heq | htl
    · cases heq
      simp [joinHeaders, List.lookup_cons]
    · have hkmem : k ∈ tl.map Prod.fst := List.mem_map_of_mem Prod.fst htl
      have hk : k ≠ k0 := fun h => hnodup.1 (h ▸ hkmem)
      have hbeq : (k == k0) = false := beq_false_of_ne hk
      simpa [joinHeaders, List.lookup_cons, hbeq] using ih htl hnodup.2

/-- Every header name survives the joining loop. -/
theorem joinHeaders_keys (l : List (String × List String)) :
    (joinHeaders l).map Prod.fst = l.map Prod.fst := by
  induction l with
  | nil => rfl
  | cons hd tl ih => simp [joinHeaders]

/-- Reduction of the handler once every stage up to URL validation has
succeeded: only the fetch result and the output marshal branch remain. -/
theorem pubSubHandler_validated (env : HandlerEnv) (body : String) (msg : PubSubMessage)
    (data : String) (input : InputPayload)
    (hm : env.method = "POST") (hb : env.bodyRead = Except.ok body)
    (he : env.envelopeUnmarshal body = Except.ok msg)
    (hd : decodeBase64 msg.message.data = Except.ok data)
    (hp : parseInputPayload data = Except.ok input)
    (hv : isValidURL input.url = true) :
    pubSubHandler env =
      match fetchURL env.fetchEnv input.url with
      | Except.error _ =>
        { status := 200, published := publishErrorMessage "Error fetching URL" input.url env.now,
          fetchAttempted := true }
      | Except.ok output =>
        match env.marshalOutputError with
        | some _ =>
          { status := 200,
            published := publishErrorMessage "Error marshalling output JSON" input.url env.now,
            fetchAttempted := true }
        | none => { status := 200, published := output, fetchAttempted := true } := by
  simp [pubSubHandler, hm, hb, he, hd, hp, hv]

/-- Reduction of fetchURL once construction, dispatch and body read have
succeeded: the success payload it returns, field by field. -/
theorem fetchURL_ok (fenv : FetchEnv) (url : String) (resp : HttpResponse)
    (h1 : fenv.newRequestError = none) (h2 : fenv.doResult = Except.ok resp)
    (h3 : fenv.bodyReadError = none) :
    fetchURL fenv url = Except.ok
      { url := url
        error := ""
        headers := encodeStringMap (joinHeaders resp.header)
        responseBody :=
          if jsonValid (limitBody (10 * 1024 * 1024) resp.body) then ""
          else limitBody (10 * 1024 * 1024) resp.body
        responseJson :=
          if jsonValid (limitBody (10 * 1024 * 1024) resp.body) then
            limitBody (10 * 1024 * 1024) resp.body
          else ""
        responseTime := fenv.responseTimeMs
        requestTime := fenv.requestTime
        statusCode := resp.statusCode } := by
  simp [fetchURL, h1, h2, h3]

/-! Claim theorems. -/

/-- C1 (amended): for every successful fetch the captured body is
classified by JSON validity — if valid, the JSON-body field holds the
bytes verbatim and the text-body field is absent from the serialized
payload; if invalid, the text-body field holds the bytes and the
JSON-body field is absent; when the captured body is non-empty exactly
one of the two is emitted, and when it is empty neither is emitted, so
no empty string is ever emitted for either field. -/
theorem c1_body_classification (fenv : FetchEnv) (url : String) (resp : HttpResponse)
    (p : OutputPayload)
    (h1 : fenv.newRequestError = none) (h2 : fenv.doResult = Except.ok resp)
    (h3 : fenv.bodyReadError = none) (hp : fetchURL fenv url = Except.ok p) :
    (jsonValid (limitBody (10 * 1024 * 1024) resp.body) = true →
      p.responseJson = limitBody (10 * 1024 * 1024) resp.body ∧
      p.responseBody = "" ∧
      "responseJson" ∈ (marshalOutputPayload p).map Prod.fst ∧
      "responseBody" ∉ (marshalOutputPayload p).map Prod.fst) ∧
    (jsonValid (limitBody (10 * 1024 * 1024) resp.body) = false →
      p.responseBody = limitBody (10 * 1024 * 1024) resp.body ∧
      p.responseJson = "" ∧
      "responseJson" ∉ (marshalOutputPayload p).map Prod.fst ∧
      (limitBody (10 * 1024 * 1024) resp.body ≠ "" →
        "responseBody" ∈ (marshalOutputPayload p).map Prod.fst) ∧
      (limitBody (10 * 1024 * 1024) resp.body = "" →
        "responseBody" ∉ (marshalOutputPayload p).map Prod.fst)) := by
  have hfe := fetchURL_ok fenv url resp h1 h2 h3
  rw [hp] at hfe
  have hpe := Except.ok.inj hfe
  subst hpe
  constructor
  · intro hjv
    have hne : limitBody (10 * 1024 * 1024) resp.body ≠ "" := by
      intro hempty
      rw [hempty, jsonValid_empty] at hjv
      cases hjv
    refine ⟨by simp [hjv], by simp [hjv], ?_, ?_⟩
    · rw [responseJson_key_mem]
      simpa [hjv] using hne
    · rw [responseBody_key_mem]
      simp [hjv]
  · intro hjv
    refine ⟨by simp [hjv], by simp [hjv], ?_, ?_, ?_⟩
    · rw [responseJson_key_mem]
      simp [hjv]
    · intro hne
      rw [responseBody_key_mem]
      simpa [hjv] using hne
    · intro hempty
      rw [responseBody_key_mem]
      simp [hjv, hempty]

/-- C1 witness: instantiating the classification theorem on a concrete
JSON-bodied exchange. -/
theorem c1_body_classification_witness :
    jsonValid (limitBody (10 * 1024 * 1024) jsonBodyResponse.body) = true ∧
    "responseJson" ∈ (marshalOutputPayload jsonBodyPayload).map Prod.fst ∧
    "responseBody" ∉ (marshalOutputPayload jsonBodyPayload).map Prod.fst := by
  have h := c1_body_classification (okFetchEnv jsonBodyResponse) "http://x" jsonBodyResponse
    jsonBodyPayload rfl rfl rfl (by decide)
  have hjv : jsonValid (limitBody (10 * 1024 * 1024) jsonBodyResponse.body) = true := by decide
  have h2 := h.1 hjv
  exact ⟨hjv, h2.2.2.1, h2.2.2.2⟩

/-- C1 counterexample: a successful fetch of an empty body. The parse
fails, the text-body struct field holds the (empty) bytes, but neither
body field is emitted in the serialized payload, so the claimed
"exactly one of the two fields is populated" fails on this input. -/
theorem c1_counterexample_empty_body :
    fetchURL (okFetchEnv emptyBodyResponse) "http://empty.example"
      = Except.ok emptyBodyPayload ∧
    jsonValid emptyBodyResponse.body = false ∧
    emptyBodyPayload.responseBody = "" ∧
    emptyBodyPayload.responseJson = "" ∧
    (marshalOutputPayload emptyBodyPayload).map Prod.fst
      = ["url", "headers", "responseTime", "requestTime", "statusCode"] := by
  refine ⟨by decide, rfl, rfl, rfl, by decide⟩

/-- C2: every inbound call to the push endpoint completes with status
200, regardless of which internal stage fails (method check, body read,
envelope unmarshal, base64 decode, payload parse, URL validation, fetch
or output marshal). -/
theorem c2_always_acknowledged (env : HandlerEnv) : (pubSubHandler env).status = 200 := by
  unfold pubSubHandler
  repeat' split
  all_goals rfl

/-- C3 (amended): the serialized failure payload carries `url` (possibly
empty), `error` and `requestTime`, and additionally the always-emitted
`responseTime` and `statusCode` members at their zero values; no headers
or body members appear. -/
theorem c3_failure_payload_fields (msg url now : String) (h : msg ≠ "") :
    (marshalOutputPayload (publishErrorMessage msg url now)).map Prod.fst
      = ["url", "error", "responseTime", "requestTime", "statusCode"] ∧
    marshalOutputPayload (publishErrorMessage msg url now)
      = [("url", JsonValue.str url), ("error", JsonValue.str msg),
         ("responseTime", JsonValue.num (toString (0 : Int))),
         ("requestTime", JsonValue.str now),
         ("statusCode", JsonValue.num (toString (0 : Int)))] := by
  constructor <;> simp [marshalOutputPayload, publishErrorMessage, h]

/-- C3 witness: the amended field list on a concrete failure payload. -/
theorem c3_failure_payload_fields_witness :
    (marshalOutputPayload (publishErrorMessage "Invalid URL" "" "t0")).map Prod.fst
      = ["url", "error", "responseTime", "requestTime", "statusCode"] :=
  (c3_failure_payload_fields "Invalid URL" "" "t0" (by decide)).1

/-- C3 counterexample: the serialized failure payload of a concrete
validation error contains `responseTime` and `statusCode` members (at
value 0), because those struct fields carry no omitempty tag — so the
claim that it contains only `url`, `error` and `requestTime` fails. -/
theorem c3_counterexample_zero_fields :
    (marshalOutputPayload (publishErrorMessage "Invalid URL" "ftp://example" "t0")).map Prod.fst
      = ["url", "error", "responseTime", "requestTime", "statusCode"] := by
  decide

/-- C4: once a request has been decoded, the pipeline proceeds to the
fetch stage exactly when the url begins with the literal prefix
http colon-slash-slash or https colon-slash-slash; any other url yields
a failure-shaped outcome echoing the offending url, and the fetch stage
is never reached. -/
theorem c4_validation_gates_fetch (env : HandlerEnv) (body : String) (msg : PubSubMessage)
    (data : String) (input : InputPayload)
    (hm : env.method = "POST") (hb : env.bodyRead = Except.ok body)
    (he : env.envelopeUnmarshal body = Except.ok msg)
    (hd : decodeBase64 msg.message.data = Except.ok data)
    (hp : parseInputPayload data = Except.ok input) :
    ((pubSubHandler env).fetchAttempted = true ↔
      (hasPrefixCL input.url.toList "http://".toList = true ∨
       hasPrefixCL input.url.toList "https://".toList = true)) ∧
    (isValidURL input.url = false →
      (pubSubHandler env).fetchAttempted = false ∧
      (pubSubHandler env).published = publishErrorMessage "Invalid URL" input.url env.now ∧
      (pubSubHandler env).published.url = input.url ∧
      (pubSubHandler env).published.error = "Invalid URL") := by
  cases hv : isValidURL input.url with
  | false =>
    have hred : pubSubHandler env =
        { status := 200, published := publishErrorMessage "Invalid URL" input.url env.now,
          fetchAttempted := false } := by
      simp [pubSubHandler, hm, hb, he, hd, hp, hv]
    have hv2 := hv
    simp only [isValidURL, Bool.or_eq_false_iff] at hv2
    constructor
    · constructor
      · intro h
        rw [hred] at h
        cases h
      · intro h
        rcases h with h | h
        · rw [hv2.1] at h
          cases h
        · rw [hv2.2] at h
          cases h
    · intro _
      refine ⟨by rw [hred], by rw [hred], ?_, ?_⟩ <;>
        rw [hred] <;> rfl
  | true =>
    have hred := pubSubHandler_validated env body msg data input hm hb he hd hp hv
    have hfa : (pubSubHandler env).fetchAttempted = true := by
      rw [hred]
      repeat' split
      all_goals rfl
    have hv2 := hv
    simp only [isValidURL, Bool.or_eq_true] at hv2
    constructor
    · exact ⟨fun _ => hv2, fun _ => hfa⟩
    · intro hfalse
      cases hfalse

/-- C4 witness: a decoded request with an empty url is rejected at
validation and publishes the Invalid URL failure shape. -/
theorem c4_validation_gates_fetch_witness :
    (pubSubHandler (handlerEnvOf "bnVsbA==" refusedFetchEnv)).fetchAttempted = false ∧
    (pubSubHandler (handlerEnvOf "bnVsbA==" refusedFetchEnv)).published
      = publishErrorMessage "Invalid URL" "" "now0" := by
  have h := c4_validation_gates_fetch (handlerEnvOf "bnVsbA==" refusedFetchEnv) "rawbody"
    (envelopeOf "bnVsbA==") "null" { url := "" } rfl rfl rfl (by decide) (by decide)
  have h2 := h.2 (by decide)
  exact ⟨h2.1, h2.2.1⟩

/-- C5: a fetch whose transport dispatch fails (connection refused,
timeout including the 10-second client limit, DNS or TLS failure) or
whose body read fails returns an error with no partial payload, and the
handler then publishes the failure shape carrying the target URL. -/
theorem c5_transport_failure_no_partial (env : HandlerEnv) (body : String)
    (msg : PubSubMessage) (data : String) (input : InputPayload) (e : String)
    (hm : env.method = "POST") (hb : env.bodyRead = Except.ok body)
    (he : env.envelopeUnmarshal body = Except.ok msg)
    (hd : decodeBase64 msg.message.data = Except.ok data)
    (hp : parseInputPayload data = Except.ok input)
    (hv : isValidURL input.url = true)
    (hfail : env.fetchEnv.doResult = Except.error e ∨ env.fetchEnv.bodyReadError = some e) :
    (∃ e2, fetchURL env.fetchEnv input.url = Except.error e2) ∧
    (pubSubHandler env).published = publishErrorMessage "Error fetching URL" input.url env.now ∧
    (pubSubHandler env).published.url = input.url ∧
    (pubSubHandler env).status = 200 := by
  have hfe : ∃ e2, fetchURL env.fetchEnv input.url = Except.error e2 := by
    rcases hfail with hdo | hbr
    · cases hnr : env.fetchEnv.newRequestError with
      | some e3 => exact ⟨e3, by simp [fetchURL, hnr]⟩
      | none => exact ⟨e, by simp [fetchURL, hnr, hdo]⟩
    · cases hnr : env.fetchEnv.newRequestError with
      | some e3 => exact ⟨e3, by simp [fetchURL, hnr]⟩
      | none =>
        cases hdo : env.fetchEnv.doResult with
        | error e4 => exact ⟨e4, by simp [fetchURL, hnr, hdo]⟩
        | ok resp => exact ⟨e, by simp [fetchURL, hnr, hdo, hbr]⟩
  obtain ⟨e2, hfe2⟩ := hfe
  have hred := pubSubHandler_validated env body msg data input hm hb he hd hp hv
  refine ⟨⟨e2, hfe2⟩, ?_, ?_, ?_⟩ <;> simp [hred, hfe2, publishErrorMessage]

/-- C5 witness: a connection-refused dispatch on a validated url
publishes the fetch-error failure shape. -/
theorem c5_transport_failure_no_partial_witness :
    (pubSubHandler (handlerEnvOf "eyJ1cmwiOiJodHRwOi8veCJ9" refusedFetchEnv)).published
      = publishErrorMessage "Error fetching URL" "http://x" "now0" ∧
    (pubSubHandler (handlerEnvOf "eyJ1cmwiOiJodHRwOi8veCJ9" refusedFetchEnv)).status = 200 := by
  have h := c5_transport_failure_no_partial
    (handlerEnvOf "eyJ1cmwiOiJodHRwOi8veCJ9" refusedFetchEnv) "rawbody"
    (envelopeOf "eyJ1cmwiOiJodHRwOi8veCJ9") "\x7b\"url\":\"http://x\"\x7d"
    { url := "http://x" } "connection refused"
    rfl rfl rfl (by decide) (by decide) (by decide) (Or.inl rfl)
  exact ⟨h.2.1, h.2.2.2⟩

/-- C6: on a successful fetch every header name delivered by the
transport is preserved, multi-valued headers are joined into one string
with comma-space in delivery order, and the payload's headers field is
the JSON encoding of that map. -/
theorem c6_headers_joined (fenv : FetchEnv) (url : String) (resp : HttpResponse)
    (h1 : fenv.newRequestError = none) (h2 : fenv.doResult = Except.ok resp)
    (h3 : fenv.bodyReadError = none)
    (hnodup : (resp.header.map Prod.fst).Nodup) :
    ∃ p, fetchURL fenv url = Except.ok p ∧
      p.headers = encodeStringMap (joinHeaders resp.header) ∧
      (joinHeaders resp.header).map Prod.fst = resp.header.map Prod.fst ∧
      ∀ k vs, (k, vs) ∈ resp.header →
        (joinHeaders resp.header).lookup k = some (String.intercalate ", " vs) := by
  refine ⟨_, fetchURL_ok fenv url resp h1 h2 h3, rfl, joinHeaders_keys resp.header,
    fun k vs hmem => lookup_joinHeaders resp.header k vs hmem hnodup⟩

/-- C6 witness: the two Set-Cookie values are joined with comma-space and
the headers field is their JSON encoding. -/
theorem c6_headers_joined_witness :
    (joinHeaders textBodyResponse.header).lookup "Set-Cookie" = some "a=1, b=2" ∧
    encodeStringMap (joinHeaders textBodyResponse.header)
      = "\x7b\"Set-Cookie\":\"a=1, b=2\"\x7d" := by
  obtain ⟨p, hfe, hhdr, hkeys, hlook⟩ :=
    c6_headers_joined (okFetchEnv textBodyResponse) "http://x" textBodyResponse
      rfl rfl rfl (by decide)
  have h := hlook "Set-Cookie" ["a=1", "b=2"] (by decide)
  exact ⟨by simpa using h, by decide⟩

/-- C7: at most 10 MiB of the response body is read; a longer body is
truncated at the cap rather than rejected — the fetch still succeeds —
and the truncated prefix is classified and published as a success
outcome. -/
theorem c7_body_capped (env : HandlerEnv) (body : String) (msg : PubSubMessage)
    (data : String) (input : InputPayload) (resp : HttpResponse)
    (hm : env.method = "POST") (hb : env.bodyRead = Except.ok body)
    (he : env.envelopeUnmarshal body = Except.ok msg)
    (hd : decodeBase64 msg.message.data = Except.ok data)
    (hp : parseInputPayload data = Except.ok input)
    (hv : isValidURL input.url = true)
    (h1 : env.fetchEnv.newRequestError = none)
    (h2 : env.fetchEnv.doResult = Except.ok resp)
    (h3 : env.fetchEnv.bodyReadError = none)
    (hmo : env.marshalOutputError = none) :
    ∃ p, fetchURL env.fetchEnv input.url = Except.ok p ∧
      p.error = "" ∧
      (limitBody (10 * 1024 * 1024) resp.body).length ≤ 10 * 1024 * 1024 ∧
      (resp.body.length ≤ 10 * 1024 * 1024 →
        limitBody (10 * 1024 * 1024) resp.body = resp.body) ∧
      (p.responseJson = limitBody (10 * 1024 * 1024) resp.body ∨
       p.responseBody = limitBody (10 * 1024 * 1024) resp.body) ∧
      (pubSubHandler env).published = p ∧
      (pubSubHandler env).status = 200 := by
  have hfe := fetchURL_ok env.fetchEnv input.url resp h1 h2 h3
  have hred := pubSubHandler_validated env body msg data input hm hb he hd hp hv
  refine ⟨_, hfe, rfl, ?_, limitBody_of_le _ _, ?_, ?_, ?_⟩
  · rw [limitBody_length]
    exact Nat.min_le_left _ _
  · cases hjv : jsonValid (limitBody (10 * 1024 * 1024) resp.body) with
    | true => exact Or.inl (by simp [hjv])
    | false => exact Or.inr (by simp [hjv])
  · simp [hred, hfe, hmo]
  · simp [hred, hfe, hmo]

/-- C7 witness: a short plain-text body passes through whole and the
handler publishes the success payload. -/
theorem c7_body_capped_witness :
    limitBody (10 * 1024 * 1024) textBodyResponse.body = textBodyResponse.body ∧
    (pubSubHandler (handlerEnvOf "eyJ1cmwiOiJodHRwOi8veCJ9" (okFetchEnv textBodyResponse))).status
      = 200 ∧
    (pubSubHandler
        (handlerEnvOf "eyJ1cmwiOiJodHRwOi8veCJ9" (okFetchEnv textBodyResponse))).published.error
      = "" := by
  obtain ⟨p, hfe, herr, hlen, htrunc, hcls, hpub, hstat⟩ :=
    c7_body_capped (handlerEnvOf "eyJ1cmwiOiJodHRwOi8veCJ9" (okFetchEnv textBodyResponse))
      "rawbody" (envelopeOf "eyJ1cmwiOiJodHRwOi8veCJ9") "\x7b\"url\":\"http://x\"\x7d"
      { url := "http://x" } textBodyResponse
      rfl rfl rfl (by decide) (by decide) (by decide) rfl rfl rfl rfl
  refine ⟨htrunc (by decide), hstat, ?_⟩
  rw [hpub]
  exact herr

/-- C8: an envelope whose data blob is not valid base64 yields a failure
publish that carries the raw undecoded blob, and the inbound call still
completes with status 200. -/
theorem c8_bad_base64_acknowledged (env : HandlerEnv) (body : String)
    (msg : PubSubMessage) (e : String)
    (hm : env.method = "POST") (hb : env.bodyRead = Except.ok body)
    (he : env.envelopeUnmarshal body = Except.ok msg)
    (hd : decodeBase64 msg.message.data = Except.error e) :
    (pubSubHandler env).status = 200 ∧
    (pubSubHandler env).published
      = publishErrorMessage "Error decoding data" msg.message.data env.now ∧
    (pubSubHandler env).published.url = msg.message.data := by
  have hred : pubSubHandler env =
      { status := 200,
        published := publishErrorMessage "Error decoding data" msg.message.data env.now,
        fetchAttempted := false } := by
    simp [pubSubHandler, hm, hb, he, hd]
  refine ⟨?_, ?_, ?_⟩ <;> simp [hred, publishErrorMessage]

/-- C8 witness: the blob not-base64-bang is rejected by the decoder and
echoed in the published failure. -/
theorem c8_bad_base64_acknowledged_witness :
    decodeBase64 "not-base64!" = Except.error "illegal base64 data" ∧
    (pubSubHandler (handlerEnvOf "not-base64!" refusedFetchEnv)).status = 200 ∧
    (pubSubHandler (handlerEnvOf "not-base64!" refusedFetchEnv)).published.url
      = "not-base64!" := by
  have h := c8_bad_base64_acknowledged (handlerEnvOf "not-base64!" refusedFetchEnv) "rawbody"
    (envelopeOf "not-base64!") "illegal base64 data" rfl rfl rfl (by decide)
  exact ⟨by decide, h.1, h.2.2⟩

/-- C9: an envelope whose data field is absent (hence the empty string
after the Go zero value) decodes successfully to the empty payload, so
the pipeline fails at the inner-JSON parse stage with the parse-error
classification, not at the decode stage. -/
theorem c9_empty_data_fails_at_parse (env : HandlerEnv) (body : String)
    (msg : PubSubMessage)
    (hm : env.method = "POST") (hb : env.bodyRead = Except.ok body)
    (he : env.envelopeUnmarshal body = Except.ok msg)
    (hdata : msg.message.data = "") :
    decodeBase64 "" = Except.ok "" ∧
    (parseInputPayload "").isOk = false ∧
    (pubSubHandler env).status = 200 ∧
    (pubSubHandler env).published
      = publishErrorMessage "Error unmarshalling input JSON" "" env.now ∧
    (pubSubHandler env).published.error = "Error unmarshalling input JSON" := by
  have hd : decodeBase64 msg.message.data = Except.ok "" := by
    rw [hdata]
    rfl
  have hp : parseInputPayload "" = Except.error "invalid JSON" := rfl
  have hred : pubSubHandler env =
      { status := 200,
        published := publishErrorMessage "Error unmarshalling input JSON" "" env.now,
        fetchAttempted := false } := by
    simp [pubSubHandler, hm, hb, he, hd, hp]
  refine ⟨rfl, rfl, ?_, ?_, ?_⟩ <;> simp [hred, publishErrorMessage]

/-- C9 witness: the empty blob fails at the inner parse, not the
decode. -/
theorem c9_empty_data_fails_at_parse_witness :
    (pubSubHandler (handlerEnvOf "" refusedFetchEnv)).status = 200 ∧
    (pubSubHandler (handlerEnvOf "" refusedFetchEnv)).published.error
      = "Error unmarshalling input JSON" := by
  have h := c9_empty_data_fails_at_parse (handlerEnvOf "" refusedFetchEnv) "rawbody"
    (envelopeOf "") rfl rfl rfl rfl
  exact ⟨h.2.2.1, h.2.2.2.2⟩

/-- C10: a url that passes the prefix validation can still fail at
request construction, before any HTTP exchange; the pipeline then
reports it with the fetch-error classification, not the validation one,
so passing validation does not guarantee a request is issued. -/
theorem c10_validation_not_sufficient (env : HandlerEnv) (body : String)
    (msg : PubSubMessage) (data : String) (input : InputPayload) (e : String)
    (hm : env.method = "POST") (hb : env.bodyRead = Except.ok body)
    (he : env.envelopeUnmarshal body = Except.ok msg)
    (hd : decodeBase64 msg.message.data = Except.ok data)
    (hp : parseInputPayload data = Except.ok input)
    (hv : isValidURL input.url = true)
    (hreq : env.fetchEnv.newRequestError = some e) :
    fetchURL env.fetchEnv input.url = Except.error e ∧
    (pubSubHandler env).published
      = publishErrorMessage "Error fetching URL" input.url env.now ∧
    (pubSubHandler env).published.error = "Error fetching URL" ∧
    (pubSubHandler env).published.error ≠ "Invalid URL" ∧
    (pubSubHandler env).status = 200 := by
  have hfe : fetchURL env.fetchEnv input.url = Except.error e := by
    simp [fetchURL, hreq]
  have hred := pubSubHandler_validated env body msg data input hm hb he hd hp hv
  refine ⟨hfe, ?_, ?_, ?_, ?_⟩ <;> simp [hred, hfe, publishErrorMessage]

/-- C10 witness: the empty-host url http colon-slash-slash passes the
prefix validation, yet with request construction failing the outcome is
the fetch-error classification. -/
theorem c10_validation_not_sufficient_witness :
    isValidURL "http://" = true ∧
    (pubSubHandler (handlerEnvOf "eyJ1cmwiOiJodHRwOi8vIn0=" badRequestFetchEnv)).published.error
      = "Error fetching URL" := by
  have h := c10_validation_not_sufficient
    (handlerEnvOf "eyJ1cmwiOiJodHRwOi8vIn0=" badRequestFetchEnv) "rawbody"
    (envelopeOf "eyJ1cmwiOiJodHRwOi8vIn0=") "\x7b\"url\":\"http://\"\x7d"
    { url := "http://" } "invalid URL"
    rfl rfl rfl (by decide) (by decide) (by decide) rfl
  exact ⟨by decide, h.2.2.1⟩

end HttpResponseCollector
